import Mathlib

/-!
A shallow embedding in Lean 4 of `src/server.py` from the mcp-weather-demo
repository, together with theorems settling the specification claims.

Modelling conventions:

* Strings are Lean `String`s (sequences of Unicode scalar values, as in
  Python).  The character classifications behind the `str.isdigit` and
  `str.strip` calls of the source are embedded as explicit codepoint-range
  tables generated from the Unicode database CPython 3.11 consults, so
  non-ASCII digit characters (for example the superscript digits) and
  non-ASCII whitespace behave exactly as they do in Python.
* JSON numbers are modelled as rationals (`Rat`); the source only passes
  numeric values through, never computes with them, so finite rationals are
  an adequate value domain (IEEE infinities / NaN do not arise in the data
  the claims quantify over).
* The two outbound HTTP calls are modelled by passing the upstream
  responses (status code plus parsed JSON body) as explicit inputs; the
  pipeline result records which of the two calls was reached, so that
  "no network call is initiated" claims are statable.
* Python exceptions raised and caught by the source become `Except` errors
  labelled by the spec taxonomy; an exception that would escape uncaught
  (TypeError / AttributeError on unexpected body shapes) is the separate
  `pythonCrash` outcome.
-/

namespace WeatherDemo

/-- JSON values as delivered by `resp.json()` in the source.  Object field
lists represent Python dicts with distinct keys. -/
inductive Json where
  | null : Json
  | bool (b : Bool) : Json
  | num (q : Rat) : Json
  | str (s : String) : Json
  | arr (items : List Json) : Json
  | obj (fields : List (String × Json)) : Json
  deriving Repr

/-- Python `dict.get` on an object field list: the value at the key, if any. -/
def lookupField : List (String × Json) → String → Option Json
  | [], _ => none
  | (k, v) :: rest, key => if k = key then some v else lookupField rest key

/-- Python truthiness of a JSON value (`if not x`, `x or y`):
`None`, `False`, `0`, `""`, `[]` and `{}` are falsy, everything else truthy. -/
def pyTruthy : Json → Bool
  | .null => false
  | .bool b => b
  | .num q => decide (q ≠ 0)
  | .str s => decide (s ≠ "")
  | .arr items => !items.isEmpty
  | .obj fields => !fields.isEmpty

/-- Inclusive codepoint ranges of the characters Python `str.isspace`
classifies as whitespace — the set `str.strip()` removes.  Generated from
the Unicode database CPython 3.11 consults. -/
def pySpaceRanges : List (Nat × Nat) :=
  [(9, 13), (28, 32), (133, 133), (160, 160), (5760, 5760), (8192, 8202),
   (8232, 8233), (8239, 8239), (8287, 8287), (12288, 12288)]

/-- Python's per-character whitespace classification (`str.isspace`). -/
def pyIsSpace (c : Char) : Bool :=
  pySpaceRanges.any (fun r => r.1 ≤ c.toNat && c.toNat ≤ r.2)

/-- Python `str.strip()`: remove leading and trailing whitespace. -/
def pyStrip (s : String) : String :=
  ⟨((s.data.dropWhile pyIsSpace).reverse.dropWhile pyIsSpace).reverse⟩

/-- Inclusive codepoint ranges of the non-ASCII characters Python
`str.isdigit` classifies as digits (superscripts, circled digits, and the
decimal digits of the non-Latin scripts).  Generated from the Unicode
database CPython 3.11 consults. -/
def pyDigitRangesNonAscii : List (Nat × Nat) :=
  [(178, 179), (185, 185), (1632, 1641), (1776, 1785), (1984, 1993),
   (2406, 2415), (2534, 2543), (2662, 2671), (2790, 2799), (2918, 2927),
   (3046, 3055), (3174, 3183), (3302, 3311), (3430, 3439), (3558, 3567),
   (3664, 3673), (3792, 3801), (3872, 3881), (4160, 4169), (4240, 4249),
   (4969, 4977), (6112, 6121), (6160, 6169), (6470, 6479), (6608, 6618),
   (6784, 6793), (6800, 6809), (6992, 7001), (7088, 7097), (7232, 7241),
   (7248, 7257), (8304, 8304), (8308, 8313), (8320, 8329), (9312, 9320),
   (9332, 9340), (9352, 9360), (9450, 9450), (9461, 9469), (9471, 9471),
   (10102, 10110), (10112, 10120), (10122, 10130), (42528, 42537),
   (43216, 43225), (43264, 43273), (43472, 43481), (43504, 43513),
   (43600, 43609), (44016, 44025), (65296, 65305), (66720, 66729),
   (68160, 68163), (68912, 68921), (69216, 69224), (69714, 69722),
   (69734, 69743), (69872, 69881), (69942, 69951), (70096, 70105),
   (70384, 70393), (70736, 70745), (70864, 70873), (71248, 71257),
   (71360, 71369), (71472, 71481), (71904, 71913), (72016, 72025),
   (72784, 72793), (73040, 73049), (73120, 73129), (92768, 92777),
   (92864, 92873), (93008, 93017), (120782, 120831), (123200, 123209),
   (123632, 123641), (125264, 125273), (127232, 127242), (130032, 130041)]

/-- Python's per-character digit classification (`str.isdigit`): the ASCII
decimal digits together with the non-ASCII Unicode digit characters. -/
def pyIsDigitChar (c : Char) : Bool :=
  c.isDigit || pyDigitRangesNonAscii.any (fun r => r.1 ≤ c.toNat && c.toNat ≤ r.2)

/-- Python `str.isdigit()`: nonempty and every character a digit in
Python's Unicode classification. -/
def pyIsdigit (s : String) : Bool :=
  !s.data.isEmpty && s.data.all pyIsDigitChar

/-- Numeric value of a list of decimal digit characters. -/
def digitsToNat (ds : List Char) : Nat :=
  ds.foldl (fun a c => a * 10 + (c.toNat - 48)) 0

/-- Split a character list into its leading run of decimal digits and the
rest. -/
def splitDigits (cs : List Char) : List Char × List Char :=
  (cs.takeWhile Char.isDigit, cs.dropWhile Char.isDigit)

/-- Unsigned part of a Python `float()` literal: digits with an optional
fractional part (at least one digit overall), then an optional decimal
exponent.  Returns the denoted rational. -/
def pyFloatCore (cs : List Char) : Option Rat :=
  let ip := (splitDigits cs).1
  let r1 := (splitDigits cs).2
  let fp := match r1 with
    | '.' :: rest => (splitDigits rest).1
    | _ => []
  let r2 := match r1 with
    | '.' :: rest => (splitDigits rest).2
    | _ => r1
  if ip.isEmpty && fp.isEmpty then none
  else
    let mant : Rat := (digitsToNat ip : Rat) + (digitsToNat fp : Rat) / ((10 : Rat) ^ fp.length)
    match r2 with
    | [] => some mant
    | e :: rest =>
      if e = 'e' || e = 'E' then
        let pos : Bool := match rest with
          | '-' :: _ => false
          | _ => true
        let rest2 := match rest with
          | '+' :: t => t
          | '-' :: t => t
          | _ => rest
        let ed := (splitDigits rest2).1
        let r3 := (splitDigits rest2).2
        if ed.isEmpty || !r3.isEmpty then none
        else if pos then some (mant * (10 : Rat) ^ digitsToNat ed)
        else some (mant / (10 : Rat) ^ digitsToNat ed)
      else none

/-- Python `float()` applied to a string: strip whitespace, optional sign,
then a finite decimal literal. -/
def pyFloatStr (s : String) : Option Rat :=
  let cs := ((s.data.dropWhile pyIsSpace).reverse.dropWhile pyIsSpace).reverse
  match cs with
  | '+' :: rest => pyFloatCore rest
  | '-' :: rest => (pyFloatCore rest).map (fun q => -q)
  | _ => pyFloatCore cs

/-- Python `float()` applied to a JSON value: numbers pass through, strings
are parsed, booleans coerce to 0 or 1; `None`, lists and dicts raise
TypeError (caught by the source and reported as a parse failure). -/
def pyFloat : Json → Option Rat
  | .num q => some q
  | .str s => pyFloatStr s
  | .bool b => some (if b then 1 else 0)
  | _ => none

/-- An upstream HTTP response: status code and parsed JSON body. -/
structure HttpResponse where
  status : Nat
  body : Json
  deriving Repr

/-- The failure taxonomy of the pipeline, in the terms of the specification.
`invalidArgument`, `notFound` and `malformedUpstream` correspond to the
`ValueError`s the source raises (carrying the message string);
`upstreamError` to `httpx` raising on a non-2xx status; `pythonCrash` to an
exception the source would not catch (TypeError / AttributeError on body
shapes outside the expected form). -/
inductive RunError where
  | invalidArgument (msg : String) : RunError
  | notFound (msg : String) : RunError
  | malformedUpstream (msg : String) : RunError
  | upstreamError (status : Nat) : RunError
  | pythonCrash (msg : String) : RunError
  deriving Repr, DecidableEq

/-- The frozen `Geo` dataclass of the source.  `place_name` and `state`
hold whatever JSON value the upstream supplied (Python does not enforce the
annotations); latitude and longitude are the coerced numbers. -/
structure Geo where
  place_name : Json
  latitude : Rat
  longitude : Rat
  state : Json
  deriving Repr

/-- Lines 176-178 of the source: `zip_code = (zip_code or "").strip()` (on a
string argument, `or ""` is the identity, since only `""` is falsy and it is
mapped to itself) followed by
`if not zip_code.isdigit() or len(zip_code) != 5: raise ValueError(...)`. -/
def validate (zip_code : String) : Except RunError String :=
  let z := pyStrip zip_code
  if !pyIsdigit z || z.length != 5 then
    .error (.invalidArgument "zip_code must be a 5-digit string")
  else
    .ok z

/-- The `_zip_to_geo` helper of the source, applied to the geocoding
response.  Mirrors lines 74-110: 404 handling, `raise_for_status` (httpx
raises on any status outside 200-299), `data.get("places") or []`, the
emptiness check, first-entry selection, optional name/state defaulting, and
the float coercion guarded by `try/except`. -/
def zip_to_geo (zip_code : String) (resp : HttpResponse) : Except RunError Geo :=
  if resp.status == 404 then
    .error (.notFound ("Unknown ZIP code: " ++ zip_code))
  else if resp.status < 200 || 300 ≤ resp.status then
    .error (.upstreamError resp.status)
  else
    match resp.body with
    | .obj fields =>
      let placesRaw := (lookupField fields "places").getD .null
      let places := if pyTruthy placesRaw then placesRaw else .arr []
      if !pyTruthy places then
        .error (.notFound ("No places found for ZIP code: " ++ zip_code))
      else
        match places with
        | .arr (place :: _) =>
          match place with
          | .obj pf =>
            let pnRaw := (lookupField pf "place name").getD .null
            let place_name := if pyTruthy pnRaw then pnRaw else .str ""
            let state := (lookupField pf "state").getD .null
            match (lookupField pf "latitude").bind pyFloat,
                  (lookupField pf "longitude").bind pyFloat with
            | some lat, some lon =>
              .ok { place_name := place_name, latitude := lat,
                    longitude := lon, state := state }
            | _, _ => .error (.malformedUpstream "Unexpected geocoding response")
          | _ => .error (.pythonCrash "AttributeError in _zip_to_geo: place is not a dict")
        | _ => .error (.pythonCrash "TypeError in _zip_to_geo: places is not a list")
    | _ => .error (.pythonCrash "AttributeError in _zip_to_geo: body is not a dict")

/-- The `_current_weather` helper of the source, applied to the forecast
response: `raise_for_status`, then the full parsed body is returned
unmodified.  The coordinates parameterize only the outgoing request URL, so
they do not influence the modelled response handling. -/
def current_weather (_lat _lon : Rat) (resp : HttpResponse) : Except RunError Json :=
  if resp.status < 200 || 300 ≤ resp.status then
    .error (.upstreamError resp.status)
  else
    .ok resp.body

/-- The fixed `units` object of the response (lines 203-207). -/
def unitsJson : Json :=
  .obj [("temperature", .str "F"), ("wind_speed", .str "mph"),
        ("precipitation", .str "inch")]

/-- The fixed `source` attribution object of the response (lines 221-224). -/
def sourceJson : Json :=
  .obj [("geocoding", .str "https://api.zippopotam.us"),
        ("forecast", .str "https://api.open-meteo.com")]

/-- The `observed` object (lines 210-218): the seven `current.get(...)`
fields, each `None` (null) when absent. -/
def observedFields (cf : List (String × Json)) : List (String × Json) :=
  [("time", (lookupField cf "time").getD .null),
   ("temperature_2m", (lookupField cf "temperature_2m").getD .null),
   ("apparent_temperature", (lookupField cf "apparent_temperature").getD .null),
   ("relative_humidity_2m", (lookupField cf "relative_humidity_2m").getD .null),
   ("precipitation", (lookupField cf "precipitation").getD .null),
   ("weather_code", (lookupField cf "weather_code").getD .null),
   ("wind_speed_10m", (lookupField cf "wind_speed_10m").getD .null)]

/-- The final response object built at lines 190-225 from the validated
code, the `Geo` record and the `current` sub-object field list. -/
def assemble (zip_code : String) (geo : Geo) (cf : List (String × Json)) : Json :=
  .obj [("zip_code", .str zip_code),
        ("location", .obj [("place_name", geo.place_name),
                           ("state", geo.state),
                           ("latitude", .num geo.latitude),
                           ("longitude", .num geo.longitude)]),
        ("units", unitsJson),
        ("observed", .obj (observedFields cf)),
        ("source", sourceJson)]

/-- Line 187 of the source: `current = weather.get("current") or {}`, given
the weather body field list. -/
def extractCurrent (wf : List (String × Json)) : Json :=
  let curRaw := (lookupField wf "current").getD .null
  if pyTruthy curRaw then curRaw else .obj []

/-- Outcome of one `get_weather` invocation: the result (or error), and
whether the geocoding and weather HTTP calls were reached. -/
structure RunResult where
  result : Except RunError Json
  geoCalled : Bool
  weatherCalled : Bool
  deriving Repr

/-- The `get_weather` tool (lines 161-225), with the two upstream responses
supplied as explicit inputs: validation, geocoding, weather fetch,
`weather.get("current") or {}`, and response assembly, in that order. -/
def get_weather (zip_code : String) (geoResp weatherResp : HttpResponse) : RunResult :=
  match validate zip_code with
  | .error e => ⟨.error e, false, false⟩
  | .ok z =>
    match zip_to_geo z geoResp with
    | .error e => ⟨.error e, true, false⟩
    | .ok geo =>
      match current_weather geo.latitude geo.longitude weatherResp with
      | .error e => ⟨.error e, true, true⟩
      | .ok weather =>
        match weather with
        | .obj wf =>
          match extractCurrent wf with
          | .obj cf => ⟨.ok (assemble z geo cf), true, true⟩
          | _ => ⟨.error (.pythonCrash "AttributeError in get_weather: current is not a dict"), true, true⟩
        | _ => ⟨.error (.pythonCrash "AttributeError in get_weather: weather body is not a dict"), true, true⟩

/-- Top-level field access on a JSON object value. -/
def Json.getField (j : Json) (k : String) : Option Json :=
  match j with
  | .obj fields => lookupField fields k
  | _ => none

/-- The key list of a JSON object value. -/
def Json.keys (j : Json) : List String :=
  match j with
  | .obj fields => fields.map Prod.fst
  | _ => []

/-- Spec-side predicate (section 4.1 / claim C1): the string consists of
exactly five decimal digits. -/
def fiveDecimalDigits (t : String) : Prop :=
  t.length = 5 ∧ t.data.all Char.isDigit = true

instance (t : String) : Decidable (fiveDecimalDigits t) :=
  inferInstanceAs (Decidable (t.length = 5 ∧ t.data.all Char.isDigit = true))

/-- The condition the code actually enforces: exactly five characters, each
a digit in Python's Unicode classification.  Strictly weaker than
`fiveDecimalDigits`, because Python `str.isdigit` also accepts non-decimal
digit characters such as the superscripts. -/
def pythonFiveDigits (t : String) : Prop :=
  t.length = 5 ∧ t.data.all pyIsDigitChar = true

instance (t : String) : Decidable (pythonFiveDigits t) :=
  inferInstanceAs (Decidable (t.length = 5 ∧ t.data.all pyIsDigitChar = true))

/-- Every five-decimal-digit string passes Python's digit test. -/
lemma fiveDecimalDigits_pythonFiveDigits (t : String) (h : fiveDecimalDigits t) :
    pythonFiveDigits t := by
  obtain ⟨hlen, hall⟩ := h
  refine ⟨hlen, ?_⟩
  rw [List.all_eq_true] at hall ⊢
  intro c hc
  have hd := hall c hc
  simp only [pyIsDigitChar, Bool.or_eq_true]
  exact Or.inl hd

/-- The boolean gate tested at line 177 is the complement of the Python
five-digit condition on the trimmed string. -/
lemma validate_cond (t : String) :
    (!pyIsdigit t || t.length != 5) = false ↔ pythonFiveDigits t := by
  unfold pyIsdigit pythonFiveDigits
  rw [show t.length = t.data.length from rfl]
  constructor
  · intro h
    have h1 : (!(!t.data.isEmpty && t.data.all pyIsDigitChar)) = false := by
      cases hx : (!(!t.data.isEmpty && t.data.all pyIsDigitChar)) with
      | false => rfl
      | true => rw [hx] at h; simp at h
    have h2 : (t.data.length != 5) = false := by
      cases hx : (t.data.length != 5) with
      | false => rfl
      | true => rw [hx] at h; simp at h
    have h2' : t.data.length = 5 := by simpa using h2
    have h1' : (!t.data.isEmpty && t.data.all pyIsDigitChar) = true := by simpa using h1
    exact ⟨h2', ((Bool.and_eq_true _ _).mp h1').2⟩
  · rintro ⟨hlen5, hall⟩
    have hne : t.data.isEmpty = false := by
      cases hd : t.data with
      | nil => rw [hd] at hlen5; simp at hlen5
      | cons a l => simp [hd]
    rw [hlen5, hne, hall]
    decide

/-- When validation succeeds, the value it returns is the stripped input. -/
lemma validate_ok_eq (s z : String) (h : validate s = .ok z) : z = pyStrip s := by
  unfold validate at h
  by_cases hc : (!pyIsdigit (pyStrip s) || (pyStrip s).length != 5) = true
  · rw [if_pos hc] at h
    exact absurd h (by simp)
  · rw [if_neg hc] at h
    exact (Except.ok.inj h).symm

/-- Validation succeeds exactly when the stripped input passes the Python
five-digit condition. -/
lemma validate_ok_iff (s : String) :
    (∃ z, validate s = .ok z) ↔ pythonFiveDigits (pyStrip s) := by
  unfold validate
  by_cases hc : (!pyIsdigit (pyStrip s) || (pyStrip s).length != 5) = false
  · simp only [hc, Bool.false_eq_true, if_false]
    simpa using (validate_cond (pyStrip s)).mp hc
  · have hc' : (!pyIsdigit (pyStrip s) || (pyStrip s).length != 5) = true := by
      cases h : (!pyIsdigit (pyStrip s) || (pyStrip s).length != 5)
      · exact absurd h hc
      · rfl
    simp only [hc', if_true]
    constructor
    · rintro ⟨z, hz⟩
      exact absurd hz (by simp)
    · intro h5
      exact absurd ((validate_cond (pyStrip s)).mpr h5) (by simp [hc'])

/-- When validation fails, the error is the `InvalidArgument` of line 178. -/
lemma validate_fail (s : String) (h : ¬ pythonFiveDigits (pyStrip s)) :
    validate s = .error (.invalidArgument "zip_code must be a 5-digit string") := by
  unfold validate
  have hc : (!pyIsdigit (pyStrip s) || (pyStrip s).length != 5) = true := by
    cases hb : (!pyIsdigit (pyStrip s) || (pyStrip s).length != 5)
    · exact absurd ((validate_cond (pyStrip s)).mp hb) h
    · rfl
  rw [if_pos hc]

/-- Characterization of the successful runs of `get_weather`: exactly the
executions where validation, geocoding, the weather fetch and the `current`
extraction all go through, and the value is the assembled response. -/
lemma get_weather_ok_iff (s : String) (g w : HttpResponse) (v : Json) :
    (get_weather s g w).result = .ok v ↔
      ∃ z geo wf cf, validate s = .ok z ∧ zip_to_geo z g = .ok geo ∧
        current_weather geo.latitude geo.longitude w = .ok (.obj wf) ∧
        extractCurrent wf = .obj cf ∧ v = assemble z geo cf := by
  unfold get_weather
  cases hv : validate s with
  | error e => simp [hv]
  | ok z =>
    cases hg : zip_to_geo z g with
    | error e => simp [hv, hg]
    | ok geo =>
      cases hw : current_weather geo.latitude geo.longitude w with
      | error e => simp [hv, hg, hw]
      | ok weather =>
        cases weather with
        | obj wf =>
          cases hc : extractCurrent wf with
          | obj cf => simp [hv, hg, hw, hc, eq_comm]
          | null => simp [hv, hg, hw, hc]
          | bool b => simp [hv, hg, hw, hc]
          | num q => simp [hv, hg, hw, hc]
          | str t => simp [hv, hg, hw, hc]
          | arr items => simp [hv, hg, hw, hc]
        | null => simp [hv, hg, hw]
        | bool b => simp [hv, hg, hw]
        | num q => simp [hv, hg, hw]
        | str t => simp [hv, hg, hw]
        | arr items => simp [hv, hg, hw]

/-- C1 as stated is false of the code: the input "²²²²²" — five copies of
the superscript-two character, which Python `str.isdigit` accepts — is not
five decimal digits, yet validation succeeds and the geocoding HTTP call is
initiated instead of an `InvalidArgument` failure. -/
theorem C1_unicode_digit_counterexample :
    ¬ fiveDecimalDigits (pyStrip "²²²²²") ∧
    validate "²²²²²" = .ok "²²²²²" ∧
    (get_weather "²²²²²" ⟨404, .null⟩ ⟨200, .null⟩).geoCalled = true ∧
    (get_weather "²²²²²" ⟨404, .null⟩ ⟨200, .null⟩).result
        ≠ .error (.invalidArgument "zip_code must be a 5-digit string") := by
  refine ⟨by decide, rfl, rfl, fun h => ?_⟩
  rw [show (get_weather "²²²²²" ⟨404, .null⟩ ⟨200, .null⟩).result
        = Except.error (RunError.notFound ("Unknown ZIP code: " ++ "²²²²²")) from rfl] at h
  exact absurd (Except.error.inj h) (by decide)

/-- C1 (amended): `get_weather` first strips surrounding whitespace (in
Python's Unicode whitespace sense) from its input; validation then succeeds
exactly when the stripped value consists of exactly five characters that
Python `str.isdigit` classifies as digits — a superset of the five-decimal-
digit strings, which in particular all succeed — and on any other input the
call fails with the `InvalidArgument` error with neither upstream HTTP call
initiated. -/
theorem C1_validation_strip_python_digits (s : String) (g w : HttpResponse) :
    ((∃ z, validate s = .ok z) ↔ pythonFiveDigits (pyStrip s)) ∧
    (fiveDecimalDigits (pyStrip s) → ∃ z, validate s = .ok z) ∧
    (¬ pythonFiveDigits (pyStrip s) →
      (get_weather s g w).result
          = .error (.invalidArgument "zip_code must be a 5-digit string") ∧
      (get_weather s g w).geoCalled = false ∧
      (get_weather s g w).weatherCalled = false) := by
  refine ⟨validate_ok_iff s,
    fun h5 => (validate_ok_iff s).mpr (fiveDecimalDigits_pythonFiveDigits _ h5),
    fun h5 => ?_⟩
  have hv := validate_fail s h5
  unfold get_weather
  simp [hv]

/-- Witness for the amended C1: the input `" 123a5 "` is rejected with no
upstream call, and the decimal input `" 12345 "` is accepted. -/
theorem C1_validation_strip_python_digits_witness :
    (¬ pythonFiveDigits (pyStrip " 123a5 ") ∧
     ((get_weather " 123a5 " ⟨200, .null⟩ ⟨200, .null⟩).result
         = .error (.invalidArgument "zip_code must be a 5-digit string") ∧
      (get_weather " 123a5 " ⟨200, .null⟩ ⟨200, .null⟩).geoCalled = false ∧
      (get_weather " 123a5 " ⟨200, .null⟩ ⟨200, .null⟩).weatherCalled = false)) ∧
    (fiveDecimalDigits (pyStrip " 12345 ") ∧ ∃ z, validate " 12345 " = .ok z) :=
  ⟨⟨by decide,
    (C1_validation_strip_python_digits " 123a5 " ⟨200, .null⟩ ⟨200, .null⟩).2.2 (by decide)⟩,
   ⟨by decide,
    (C1_validation_strip_python_digits " 12345 " ⟨200, .null⟩ ⟨200, .null⟩).2.1 (by decide)⟩⟩

/-- C6: every successful result object has exactly the keys zip_code,
location, units, observed and source, in that order, and its units and
source fields are the fixed constant objects of the source. -/
theorem C6_envelope_keys_units_source (s : String) (g w : HttpResponse) (v : Json)
    (h : (get_weather s g w).result = .ok v) :
    v.keys = ["zip_code", "location", "units", "observed", "source"] ∧
    v.getField "units" = some unitsJson ∧
    v.getField "source" = some sourceJson := by
  obtain ⟨z, geo, wf, cf, hz, hg, hw, hc, hv⟩ := (get_weather_ok_iff s g w v).mp h
  subst hv
  exact ⟨rfl, rfl, rfl⟩

/-- Witness for C6 on a concrete successful run. -/
theorem C6_envelope_keys_units_source_witness :
    ((get_weather "90210"
        ⟨200, .obj [("places", .arr [.obj [("latitude", .num 34), ("longitude", .num (-118))]])]⟩
        ⟨200, .obj []⟩).result
      = .ok (assemble "90210" ⟨.str "", 34, -118, .null⟩ [])) ∧
    ((assemble "90210" ⟨.str "", 34, -118, .null⟩ []).keys
        = ["zip_code", "location", "units", "observed", "source"] ∧
     (assemble "90210" ⟨.str "", 34, -118, .null⟩ []).getField "units" = some unitsJson ∧
     (assemble "90210" ⟨.str "", 34, -118, .null⟩ []).getField "source" = some sourceJson) :=
  ⟨rfl,
   C6_envelope_keys_units_source "90210"
     ⟨200, .obj [("places", .arr [.obj [("latitude", .num 34), ("longitude", .num (-118))]])]⟩
     ⟨200, .obj []⟩ (assemble "90210" ⟨.str "", 34, -118, .null⟩ []) rfl⟩

/-- C8: the pipeline is deterministic — two invocations with identical input
strings and identical upstream response bodies yield identical outputs
(the embedding of `get_weather` is a pure function of those values, with no
other state). -/
theorem C8_identical_runs_identical_output (s1 s2 : String) (g1 g2 w1 w2 : HttpResponse)
    (hs : s1 = s2) (hg : g1 = g2) (hw : w1 = w2) :
    get_weather s1 g1 w1 = get_weather s2 g2 w2 := by
  rw [hs, hg, hw]

/-- Witness for C8 on a concrete repeated invocation. -/
theorem C8_identical_runs_identical_output_witness :
    get_weather "02134" ⟨404, .null⟩ ⟨200, .null⟩
      = get_weather "02134" ⟨404, .null⟩ ⟨200, .null⟩ :=
  C8_identical_runs_identical_output "02134" "02134"
    ⟨404, .null⟩ ⟨404, .null⟩ ⟨200, .null⟩ ⟨200, .null⟩ rfl rfl rfl

/-- C9: the `zip_code` field of a successful result is the stripped input
(surrounding whitespace removed), not the raw input string. -/
theorem C9_zip_code_field_is_trimmed (s : String) (g w : HttpResponse) (v : Json)
    (h : (get_weather s g w).result = .ok v) :
    v.getField "zip_code" = some (.str (pyStrip s)) := by
  obtain ⟨z, geo, wf, cf, hz, hg, hw, hc, hv⟩ := (get_weather_ok_iff s g w v).mp h
  obtain rfl := validate_ok_eq s z hz
  subst hv
  rfl

/-- Witness for C9 at the whitespace-padded input `" 12345 "`, whose result
echoes `"12345"`, not the padded string. -/
theorem C9_zip_code_field_is_trimmed_witness :
    ((get_weather " 12345 "
        ⟨200, .obj [("places", .arr [.obj [("latitude", .num 1), ("longitude", .num 2)]])]⟩
        ⟨200, .obj []⟩).result
      = .ok (assemble "12345" ⟨.str "", 1, 2, .null⟩ [])) ∧
    ((assemble "12345" ⟨.str "", 1, 2, .null⟩ []).getField "zip_code"
      = some (.str (pyStrip " 12345 "))) :=
  ⟨rfl,
   C9_zip_code_field_is_trimmed " 12345 "
     ⟨200, .obj [("places", .arr [.obj [("latitude", .num 1), ("longitude", .num 2)]])]⟩
     ⟨200, .obj []⟩ (assemble "12345" ⟨.str "", 1, 2, .null⟩ []) rfl⟩

/-- C2 as stated is false of the code: on a geocoding 404 for the validated
code "12345", the `NotFound` message is "Unknown ZIP code: 12345", not
"Unknown postal code: 12345". -/
theorem C2_message_counterexample :
    (get_weather "12345" ⟨404, .null⟩ ⟨200, .null⟩).result
        = .error (.notFound "Unknown ZIP code: 12345") ∧
    (get_weather "12345" ⟨404, .null⟩ ⟨200, .null⟩).result
        ≠ .error (.notFound "Unknown postal code: 12345") := by
  refine ⟨rfl, fun h => ?_⟩
  rw [show (get_weather "12345" ⟨404, .null⟩ ⟨200, .null⟩).result
        = Except.error (RunError.notFound "Unknown ZIP code: 12345") from rfl] at h
  exact absurd (Except.error.inj h) (by decide)

/-- C2 (amended): whenever the geocoding call returns HTTP 404, the
pipeline fails with a `NotFound` error whose message is
"Unknown ZIP code: <code>", quoting the original validated code, and the
weather call is never made. -/
theorem C2_geo_404_not_found (s z : String) (g w : HttpResponse)
    (hz : validate s = .ok z) (h404 : g.status = 404) :
    (get_weather s g w).result = .error (.notFound ("Unknown ZIP code: " ++ z)) ∧
    (get_weather s g w).weatherCalled = false := by
  have hg : zip_to_geo z g = .error (.notFound ("Unknown ZIP code: " ++ z)) := by
    unfold zip_to_geo
    rw [h404]
    rfl
  unfold get_weather
  simp [hz, hg]

/-- Witness for the amended C2 at the concrete code "54321". -/
theorem C2_geo_404_not_found_witness :
    validate "54321" = .ok "54321" ∧
    (⟨404, Json.null⟩ : HttpResponse).status = 404 ∧
    ((get_weather "54321" ⟨404, .null⟩ ⟨200, .null⟩).result
        = .error (.notFound ("Unknown ZIP code: " ++ "54321")) ∧
     (get_weather "54321" ⟨404, .null⟩ ⟨200, .null⟩).weatherCalled = false) :=
  ⟨rfl, rfl, C2_geo_404_not_found "54321" "54321" ⟨404, .null⟩ ⟨200, .null⟩ rfl rfl⟩

/-- C3 as stated is false of the code: on a geocoding success whose body
has an empty "places" list, the `NotFound` message is
"No places found for ZIP code: 12345", not "No places found for code:
12345". -/
theorem C3_message_counterexample :
    (get_weather "12345" ⟨200, .obj [("places", .arr [])]⟩ ⟨200, .null⟩).result
        = .error (.notFound "No places found for ZIP code: 12345") ∧
    (get_weather "12345" ⟨200, .obj [("places", .arr [])]⟩ ⟨200, .null⟩).result
        ≠ .error (.notFound "No places found for code: 12345") := by
  refine ⟨rfl, fun h => ?_⟩
  rw [show (get_weather "12345" ⟨200, .obj [("places", .arr [])]⟩ ⟨200, .null⟩).result
        = Except.error (RunError.notFound "No places found for ZIP code: 12345") from rfl] at h
  exact absurd (Except.error.inj h) (by decide)

/-- C3 (amended): whenever the geocoding call succeeds (2xx) with a JSON
object body whose "places" key holds an empty list, the pipeline fails with
a `NotFound` error whose message is "No places found for ZIP code: <code>",
and the weather call is never attempted. -/
theorem C3_empty_places_not_found (s z : String) (g w : HttpResponse)
    (fields : List (String × Json))
    (hz : validate s = .ok z)
    (hst : 200 ≤ g.status ∧ g.status < 300)
    (hb : g.body = .obj fields)
    (hpl : lookupField fields "places" = some (.arr [])) :
    (get_weather s g w).result
        = .error (.notFound ("No places found for ZIP code: " ++ z)) ∧
    (get_weather s g w).weatherCalled = false := by
  have hne : g.status ≠ 404 := by omega
  have h1 : ¬ (g.status < 200) := by omega
  have h2 : ¬ (300 ≤ g.status) := by omega
  have hg : zip_to_geo z g
      = .error (.notFound ("No places found for ZIP code: " ++ z)) := by
    unfold zip_to_geo
    rw [if_neg (by simp [hne]), if_neg (by simp [h1, h2]), hb]
    simp only [hpl, Option.getD_some]
    simp [pyTruthy]
  unfold get_weather
  simp [hz, hg]

/-- Witness for the amended C3 at the concrete code "12345". -/
theorem C3_empty_places_not_found_witness :
    validate "12345" = .ok "12345" ∧
    (200 ≤ (⟨200, Json.obj [("places", .arr [])]⟩ : HttpResponse).status ∧
      (⟨200, Json.obj [("places", .arr [])]⟩ : HttpResponse).status < 300) ∧
    ((get_weather "12345" ⟨200, .obj [("places", .arr [])]⟩ ⟨200, .null⟩).result
        = .error (.notFound ("No places found for ZIP code: " ++ "12345")) ∧
     (get_weather "12345" ⟨200, .obj [("places", .arr [])]⟩ ⟨200, .null⟩).weatherCalled
        = false) :=
  ⟨rfl, by decide,
   C3_empty_places_not_found "12345" "12345" ⟨200, .obj [("places", .arr [])]⟩
     ⟨200, .null⟩ [("places", .arr [])] rfl (by decide) rfl rfl⟩

/-- C10: when the geocoding success body maps "places" to null or any
other falsy value, the pipeline fails with the same
"No places found" `NotFound` error as for an empty list, and in particular
does not crash with an uncaught exception. -/
theorem C10_falsy_places_not_found (s z : String) (g w : HttpResponse)
    (fields : List (String × Json)) (pv : Json)
    (hz : validate s = .ok z)
    (hst : 200 ≤ g.status ∧ g.status < 300)
    (hb : g.body = .obj fields)
    (hpl : lookupField fields "places" = some pv)
    (hfalsy : pyTruthy pv = false) :
    (get_weather s g w).result
        = .error (.notFound ("No places found for ZIP code: " ++ z)) ∧
    (∀ m, (get_weather s g w).result ≠ .error (.pythonCrash m)) ∧
    (get_weather s g w).weatherCalled = false := by
  have hne : g.status ≠ 404 := by omega
  have h1 : ¬ (g.status < 200) := by omega
  have h2 : ¬ (300 ≤ g.status) := by omega
  have hg : zip_to_geo z g
      = .error (.notFound ("No places found for ZIP code: " ++ z)) := by
    unfold zip_to_geo
    rw [if_neg (by simp [hne]), if_neg (by simp [h1, h2]), hb]
    simp only [hpl, Option.getD_some]
    rw [hfalsy]
    simp [pyTruthy]
  have heq : (get_weather s g w).result
      = .error (.notFound ("No places found for ZIP code: " ++ z)) := by
    unfold get_weather
    simp [hz, hg]
  refine ⟨heq, fun m h => ?_, ?_⟩
  · rw [heq] at h
    simp at h
  · unfold get_weather
    simp [hz, hg]

/-- Witness for C10 with "places" mapped to null. -/
theorem C10_falsy_places_not_found_witness :
    validate "60601" = .ok "60601" ∧
    pyTruthy Json.null = false ∧
    ((get_weather "60601" ⟨200, .obj [("places", .null)]⟩ ⟨200, .null⟩).result
        = .error (.notFound ("No places found for ZIP code: " ++ "60601")) ∧
     (∀ m, (get_weather "60601" ⟨200, .obj [("places", .null)]⟩ ⟨200, .null⟩).result
        ≠ .error (.pythonCrash m)) ∧
     (get_weather "60601" ⟨200, .obj [("places", .null)]⟩ ⟨200, .null⟩).weatherCalled
        = false) :=
  ⟨rfl, rfl,
   C10_falsy_places_not_found "60601" "60601" ⟨200, .obj [("places", .null)]⟩
     ⟨200, .null⟩ [("places", .null)] Json.null rfl (by decide) rfl rfl rfl⟩

/-- C4: on a geocoding success whose first "places" entry has a latitude or
longitude field that does not coerce to a floating-point number, the
pipeline fails with `MalformedUpstreamResponse`
("Unexpected geocoding response"), and not with `NotFound`. -/
theorem C4_bad_coordinates_malformed (s z : String) (g w : HttpResponse)
    (fields pf : List (String × Json)) (rest : List Json) (v : Json)
    (hz : validate s = .ok z)
    (hst : 200 ≤ g.status ∧ g.status < 300)
    (hb : g.body = .obj fields)
    (hpl : lookupField fields "places" = some (.arr (.obj pf :: rest)))
    (hbad : (lookupField pf "latitude" = some v ∧ pyFloat v = none) ∨
            (lookupField pf "longitude" = some v ∧ pyFloat v = none)) :
    (get_weather s g w).result
        = .error (.malformedUpstream "Unexpected geocoding response") ∧
    (∀ m, (get_weather s g w).result ≠ .error (.notFound m)) := by
  have hne : g.status ≠ 404 := by omega
  have h1 : ¬ (g.status < 200) := by omega
  have h2 : ¬ (300 ≤ g.status) := by omega
  have htr : pyTruthy (Json.arr (Json.obj pf :: rest)) = true := rfl
  have hg : zip_to_geo z g
      = .error (.malformedUpstream "Unexpected geocoding response") := by
    unfold zip_to_geo
    rw [if_neg (by simp [hne]), if_neg (by simp [h1, h2]), hb]
    rcases hbad with ⟨hl, hf⟩ | ⟨hl, hf⟩
    · have hbind : (lookupField pf "latitude").bind pyFloat = none := by
        rw [hl]; exact hf
      cases hy : (lookupField pf "longitude").bind pyFloat with
      | none => simp [hpl, htr, hbind, hy]
      | some q => simp [hpl, htr, hbind, hy]
    · have hbind : (lookupField pf "longitude").bind pyFloat = none := by
        rw [hl]; exact hf
      cases hx : (lookupField pf "latitude").bind pyFloat with
      | none => simp [hpl, htr, hbind, hx]
      | some q => simp [hpl, htr, hbind, hx]
  have heq : (get_weather s g w).result
      = .error (.malformedUpstream "Unexpected geocoding response") := by
    unfold get_weather
    simp [hz, hg]
  refine ⟨heq, fun m h => ?_⟩
  rw [heq] at h
  simp at h

/-- Witness for C4 with a non-numeric latitude string. -/
theorem C4_bad_coordinates_malformed_witness :
    ((get_weather "33101"
        ⟨200, .obj [("places", .arr [.obj [("latitude", .str "abc"), ("longitude", .num 1)]])]⟩
        ⟨200, .null⟩).result
      = .error (.malformedUpstream "Unexpected geocoding response")) ∧
    (∀ m, (get_weather "33101"
        ⟨200, .obj [("places", .arr [.obj [("latitude", .str "abc"), ("longitude", .num 1)]])]⟩
        ⟨200, .null⟩).result ≠ .error (.notFound m)) :=
  C4_bad_coordinates_malformed "33101" "33101"
    ⟨200, .obj [("places", .arr [.obj [("latitude", .str "abc"), ("longitude", .num 1)]])]⟩
    ⟨200, .null⟩
    [("places", .arr [.obj [("latitude", .str "abc"), ("longitude", .num 1)]])]
    [("latitude", .str "abc"), ("longitude", .num 1)] [] (.str "abc")
    rfl (by decide) rfl rfl (Or.inl ⟨rfl, rfl⟩)

/-- C5: with successful validation and geocoding, a 2xx weather response
whose object body has no "current" key yields a successful result whose
observed object has all seven fields null. -/
theorem C5_missing_current_all_null (s z : String) (geo : Geo) (g w : HttpResponse)
    (wf : List (String × Json))
    (hz : validate s = .ok z)
    (hgeo : zip_to_geo z g = .ok geo)
    (hst : 200 ≤ w.status ∧ w.status < 300)
    (hb : w.body = .obj wf)
    (hcur : lookupField wf "current" = none) :
    (get_weather s g w).result = .ok (assemble z geo []) ∧
    (assemble z geo []).getField "observed"
        = some (.obj [("time", .null), ("temperature_2m", .null),
                      ("apparent_temperature", .null), ("relative_humidity_2m", .null),
                      ("precipitation", .null), ("weather_code", .null),
                      ("wind_speed_10m", .null)]) := by
  have h1 : ¬ (w.status < 200) := by omega
  have h2 : ¬ (300 ≤ w.status) := by omega
  have hwx : current_weather geo.latitude geo.longitude w = .ok (.obj wf) := by
    unfold current_weather
    rw [if_neg (by simp [h1, h2]), hb]
  have hext : extractCurrent wf = .obj [] := by
    unfold extractCurrent
    simp [hcur, pyTruthy]
  refine ⟨?_, rfl⟩
  rw [get_weather_ok_iff]
  exact ⟨z, geo, wf, [], hz, hgeo, hwx, hext, rfl⟩

/-- Witness for C5 with a weather body lacking the "current" key. -/
theorem C5_missing_current_all_null_witness :
    ((get_weather "10001"
        ⟨200, .obj [("places", .arr [.obj [("latitude", .num 1), ("longitude", .num 2)]])]⟩
        ⟨200, .obj [("elevation", .num 5)]⟩).result
      = .ok (assemble "10001" ⟨.str "", 1, 2, .null⟩ [])) ∧
    ((assemble "10001" ⟨.str "", 1, 2, .null⟩ []).getField "observed"
        = some (.obj [("time", .null), ("temperature_2m", .null),
                      ("apparent_temperature", .null), ("relative_humidity_2m", .null),
                      ("precipitation", .null), ("weather_code", .null),
                      ("wind_speed_10m", .null)])) :=
  C5_missing_current_all_null "10001" "10001" ⟨.str "", 1, 2, .null⟩
    ⟨200, .obj [("places", .arr [.obj [("latitude", .num 1), ("longitude", .num 2)]])]⟩
    ⟨200, .obj [("elevation", .num 5)]⟩ [("elevation", .num 5)]
    rfl rfl (by decide) rfl rfl

/-- C7: on a geocoding success with a non-empty "places" list, the Location
is built from the first entry; a missing place name defaults to the empty
string, a missing state defaults to null, and neither omission causes a
failure. -/
theorem C7_first_place_optional_defaults (z : String) (g : HttpResponse)
    (fields pf : List (String × Json)) (rest : List Json) (lv gv : Json) (lat lon : Rat)
    (hst : 200 ≤ g.status ∧ g.status < 300)
    (hb : g.body = .obj fields)
    (hpl : lookupField fields "places" = some (.arr (.obj pf :: rest)))
    (hlat : lookupField pf "latitude" = some lv) (hlv : pyFloat lv = some lat)
    (hlon : lookupField pf "longitude" = some gv) (hgv : pyFloat gv = some lon) :
    ∃ geo, zip_to_geo z g = .ok geo ∧
      geo.latitude = lat ∧ geo.longitude = lon ∧
      (lookupField pf "place name" = none → geo.place_name = .str "") ∧
      (lookupField pf "state" = none → geo.state = .null) := by
  have hne : g.status ≠ 404 := by omega
  have h1 : ¬ (g.status < 200) := by omega
  have h2 : ¬ (300 ≤ g.status) := by omega
  have htr : pyTruthy (Json.arr (Json.obj pf :: rest)) = true := rfl
  have hbl : (lookupField pf "latitude").bind pyFloat = some lat := by
    rw [hlat]; exact hlv
  have hbg : (lookupField pf "longitude").bind pyFloat = some lon := by
    rw [hlon]; exact hgv
  have hg : zip_to_geo z g = .ok
      ⟨if pyTruthy ((lookupField pf "place name").getD .null) = true
          then (lookupField pf "place name").getD .null else .str "",
        lat, lon, (lookupField pf "state").getD .null⟩ := by
    unfold zip_to_geo
    rw [if_neg (by simp [hne]), if_neg (by simp [h1, h2]), hb]
    simp [hpl, htr, hbl, hbg]
  refine ⟨_, hg, rfl, rfl, fun hpn => ?_, fun hstt => ?_⟩
  · simp [hpn, pyTruthy]
  · simp [hstt]

/-- Witness for C7 with a first place entry lacking both the name and the
state field. -/
theorem C7_first_place_optional_defaults_witness :
    ∃ geo, zip_to_geo "02134"
        ⟨200, .obj [("places", .arr [.obj [("latitude", .num 7), ("longitude", .num (-3))]])]⟩
      = .ok geo ∧
      geo.latitude = 7 ∧ geo.longitude = -3 ∧
      (lookupField [("latitude", Json.num 7), ("longitude", Json.num (-3))] "place name" = none →
        geo.place_name = .str "") ∧
      (lookupField [("latitude", Json.num 7), ("longitude", Json.num (-3))] "state" = none →
        geo.state = .null) :=
  C7_first_place_optional_defaults "02134"
    ⟨200, .obj [("places", .arr [.obj [("latitude", .num 7), ("longitude", .num (-3))]])]⟩
    [("places", .arr [.obj [("latitude", .num 7), ("longitude", .num (-3))]])]
    [("latitude", .num 7), ("longitude", .num (-3))] [] (.num 7) (.num (-3)) 7 (-3)
    (by decide) rfl rfl rfl rfl rfl rfl

end WeatherDemo
